import Mathlib

/-!
Shallow embedding of the repoproxy caching gateway, from src/repoproxyd.go
and src/repoproxy.sql.

Modelling choices, stated once:
  - Go strings are Lean `String`; Go `int64` is Lean `Int` (content lengths
    here never overflow, and the Go code never relies on wraparound).
  - The `cacheitem` table is a `List CacheRow` in insertion order; SQL
    `SELECT ... WHERE reponame = $1 AND pathname = $2` returning one row is
    `List.find?`, `COUNT(*)` is the length of the filtered list, `INSERT`
    appends, `UPDATE ... WHERE` maps over the list rewriting matching rows.
    The schema (repoproxy.sql) has no uniqueness constraint on
    (reponame, pathname), only non-unique indexes, so duplicate key rows
    are representable, exactly as in the database.
  - The filesystem is an association list from paths to byte contents.
    `os.Create` makes an empty file visible at its path; each write during
    `io.Copy` extends that file in place, as on a real filesystem.
  - The HTTP collaborators (repomap lookup outcome, HEAD probe response,
    GET fetch response), and the success or failure of `os.MkdirAll`,
    `os.Create` and the database calls, are oracle fields of a `World`
    record; sink write failures (client connection, cache file) are
    modelled by an optional failure index per sink.
  - `mainHandler` follows the Go handler statement by statement; the
    construction of `targetUrl`, logging, Sentry reporting and the
    Content-Type header are dropped because no claim mentions them.
-/

namespace Repoproxy

/-- Go `strings.HasPrefix`, on the character lists underlying strings. -/
def listIsPfx : List Char → List Char → Bool
  | [], _ => true
  | _ :: _, [] => false
  | a :: xs, b :: ys => a == b && listIsPfx xs ys

/-- Go `strings.TrimPrefix s pfx`: drop `pfx` when it is a prefix, else `s`. -/
def goTrimPfx (s pfx : String) : String :=
  if listIsPfx pfx.data s.data then String.mk (s.data.drop pfx.data.length) else s

/-- Splitting around the first occurrence of `sep`: `some (before, after)`
when `sep` occurs, `none` otherwise.  Helper for `goSplitN2`. -/
def splitFirst (sep : Char) : List Char → Option (List Char × List Char)
  | [] => none
  | c :: cs =>
    if c == sep then some ([], cs)
    else
      match splitFirst sep cs with
      | some (a, b) => some (c :: a, b)
      | none => none

/-- Go `strings.SplitN s sep 2` for a one-character separator: a two-element
list when `sep` occurs in `s`, otherwise the one-element list `[s]`. -/
def goSplitN2 (s : String) (sep : Char) : List String :=
  match splitFirst sep s.data with
  | some (a, b) => [String.mk a, String.mk b]
  | none => [s]

/-- Digit-string accumulator for `goParseInt`. -/
def parseDigitsAux : List Char → Nat → Option Nat
  | [], acc => some acc
  | c :: cs, acc =>
    if c.isDigit then parseDigitsAux cs (acc * 10 + (c.toNat - 48)) else none

/-- Go `strconv.ParseInt(s, 10, 64)` with the error ignored, as the handler
does (`contentLength, _ := strconv.ParseInt(...)`): an absent or unparsable
header value yields 0. -/
def goParseInt (s : String) : Int :=
  match s.data with
  | [] => 0
  | '-' :: cs =>
    (match cs, parseDigitsAux cs 0 with
     | _ :: _, some n => -(n : Int)
     | _, _ => 0)
  | '+' :: cs =>
    (match cs, parseDigitsAux cs 0 with
     | _ :: _, some n => (n : Int)
     | _, _ => 0)
  | cs =>
    (match parseDigitsAux cs 0 with
     | some n => (n : Int)
     | none => 0)

/-- One row of the `cacheitem` table (src/repoproxy.sql); the `rowid` serial
is irrelevant to every query the program issues and is omitted.  `NOW()` is
modelled by a `Nat` clock value supplied by the caller. -/
structure CacheRow where
  reponame : String
  pathname : String
  lastmodified : String
  filesize : Int
  etag : String
  updatedate : Nat
deriving DecidableEq

/-- The SQL predicate `reponame = $1 AND pathname = $2`. -/
def rowMatches (repo itemPath : String) (r : CacheRow) : Bool :=
  r.reponame == repo && r.pathname == itemPath

/-- `SELECT lastmodified, filesize, etag FROM cacheitem WHERE reponame = $1
AND pathname = $2` via `QueryRow`, which yields the first matching row. -/
def queryCacheitem (tbl : List CacheRow) (repo itemPath : String) : Option CacheRow :=
  tbl.find? (rowMatches repo itemPath)

/-- Outcome of a `QueryRow(...).Scan(...)` call in `itemInCache`: a row, the
no-rows error, or any other database error. -/
inductive QueryOutcome where
  | found (r : CacheRow)
  | notFound
  | dbError
deriving DecidableEq

/-- The query outcome `itemInCache` observes: when the database read works
it is determined by the table, otherwise it is an error. -/
def lookupOutcome (dbReadOk : Bool) (tbl : List CacheRow) (repo itemPath : String) :
    QueryOutcome :=
  if dbReadOk then
    match queryCacheitem tbl repo itemPath with
    | some r => .found r
    | none => .notFound
  else .dbError

/-- Go `itemInCache` (repoproxyd.go lines 63-77).  Any `Scan` error —
including `pgx.ErrNoRows` — takes the `return false, nil` branch; on a
found row the three fields are compared for equality.  The second component
is the returned `error`, which is `nil` (`none`) on every path. -/
def itemInCache (q : QueryOutcome) (lastMod : String) (fileSize : Int) (etag : String) :
    Bool × Option String :=
  match q with
  | .found r =>
    if r.lastmodified == lastMod && r.filesize == fileSize && r.etag == etag then
      (true, none)
    else
      (false, none)
  | .notFound => (false, none)
  | .dbError => (false, none)

/-- `SELECT COUNT(*) FROM cacheitem WHERE reponame = $1 AND pathname = $2`. -/
def countCacheitem (tbl : List CacheRow) (repo itemPath : String) : Nat :=
  (tbl.filter (rowMatches repo itemPath)).length

/-- `INSERT INTO cacheitem (reponame, pathname, lastmodified, filesize,
etag, updatedate) VALUES ($1, $2, $3, $4, $5, NOW())`. -/
def sqlInsertCacheitem (tbl : List CacheRow) (repo itemPath lastMod : String)
    (fileSize : Int) (etag : String) (now : Nat) : List CacheRow :=
  tbl ++ [⟨repo, itemPath, lastMod, fileSize, etag, now⟩]

/-- `UPDATE cacheitem SET lastmodified = $1, filesize = $2, etag = $3,
updatedate = NOW() WHERE reponame = $4 AND pathname = $5`. -/
def sqlUpdateCacheitem (tbl : List CacheRow) (lastMod : String) (fileSize : Int)
    (etag : String) (repo itemPath : String) (now : Nat) : List CacheRow :=
  tbl.map fun r =>
    if rowMatches repo itemPath r then
      { r with lastmodified := lastMod, filesize := fileSize, etag := etag, updatedate := now }
    else r

/-- The write phase of Go `updateCache`: `if count == 0 { INSERT } else
{ UPDATE }` (repoproxyd.go lines 87-103). -/
def updateCacheWrite (tbl : List CacheRow) (count : Nat) (repo itemPath lastMod : String)
    (fileSize : Int) (etag : String) (now : Nat) : List CacheRow :=
  if count == 0 then sqlInsertCacheitem tbl repo itemPath lastMod fileSize etag now
  else sqlUpdateCacheitem tbl lastMod fileSize etag repo itemPath now

/-- Go `updateCache` (repoproxyd.go lines 79-106) run without interference:
first the `SELECT COUNT(*)` (issued on the pool, before `db.Begin`), then
the insert-or-update decided by that count. -/
def updateCache (tbl : List CacheRow) (repo itemPath lastMod : String)
    (fileSize : Int) (etag : String) (now : Nat) : List CacheRow :=
  updateCacheWrite tbl (countCacheitem tbl repo itemPath) repo itemPath lastMod fileSize etag now

/-- Two concurrent `updateCache` calls for the same key, interleaved so that
both `SELECT COUNT(*)` reads execute before either write.  This interleaving
is possible because the count query runs on the pool before the transaction
is even begun (and the single-statement transactions run at read-committed
isolation, which does not serialize against it). -/
def twoWritersBothReadFirst (tbl : List CacheRow) (repo itemPath : String)
    (lmA : String) (szA : Int) (etA : String) (nowA : Nat)
    (lmB : String) (szB : Int) (etB : String) (nowB : Nat) : List CacheRow :=
  let cA := countCacheitem tbl repo itemPath
  let cB := countCacheitem tbl repo itemPath
  let tbl1 := updateCacheWrite tbl cA repo itemPath lmA szA etA nowA
  updateCacheWrite tbl1 cB repo itemPath lmB szB etB nowB

/-- The local filesystem: an association list from paths to byte contents. -/
def Fs : Type := List (String × List Nat)

instance : DecidableEq Fs := by unfold Fs; infer_instance

/-- Write (create or overwrite) the file at path `p` with `content`. -/
def fsSet (fs : Fs) (p : String) (content : List Nat) : Fs :=
  (p, content) :: fs.filter (fun kv => !(kv.fst == p))

/-- A byte sink (the client connection `w`, or the opened cache file): the
chunks successfully written so far, and an optional index at which the
sink's `Write` fails (`some n` makes the write of the n-th chunk, counted
from 0, return an error — a client disconnect or a disk write error). -/
structure Sink where
  written : List (List Nat)
  failAt : Option Nat
deriving DecidableEq

/-- One `Write` call on a sink: appends the chunk and reports success,
unless the sink's failure index has been reached. -/
def sinkWrite (s : Sink) (chunk : List Nat) : Sink × Bool :=
  match s.failAt with
  | some n =>
    if s.written.length == n then (s, false)
    else ({ s with written := s.written ++ [chunk] }, true)
  | none => ({ s with written := s.written ++ [chunk] }, true)

/-- `io.MultiWriter(w, file).Write(chunk)`: writes to the client first,
then to the file; an error from either writer stops the multi-write and is
returned (Go io.MultiWriter semantics). -/
def multiWrite (client file : Sink) (chunk : List Nat) : Sink × Sink × Bool :=
  let cw := sinkWrite client chunk
  if cw.2 then
    let fw := sinkWrite file chunk
    (cw.1, fw.1, fw.2)
  else (cw.1, file, false)

/-- `io.Copy(io.MultiWriter(w, file), body)`: the body arrives as a list of
chunks; each chunk is multi-written, and the first write error aborts the
copy.  Returns the final client sink, file sink, and success flag. -/
def ioCopy : Sink → Sink → List (List Nat) → Sink × Sink × Bool
  | client, file, [] => (client, file, true)
  | client, file, chunk :: rest =>
    let m := multiWrite client file chunk
    if m.2.2 then ioCopy m.1 m.2.1 rest else m

/-- Headers of the HEAD probe response; `Header.Get` returns "" for an
absent header, so every field is a plain string. -/
structure HeadResp where
  lastModified : String
  contentLength : String
  etag : String
  contentType : String
deriving DecidableEq

/-- The GET fetch response: status line plus the headers and body chunks. -/
structure GetResp where
  statusCode : Nat
  status : String
  lastModified : String
  etag : String
  contentLength : String
  body : List (List Nat)
deriving DecidableEq

/-- Everything `mainHandler` interacts with: the two tables, the
filesystem, the cache directory root, and the outcomes of the external
calls the handler makes during this request. -/
structure World where
  repomap : List (String × String)
  cacheitem : List CacheRow
  fs : Fs
  cacheDir : String
  headResp : Option HeadResp
  getResp : Option GetResp
  mkdirOk : Bool
  createOk : Bool
  dbReadOk : Bool
  dbWriteOk : Bool
  clientFailAt : Option Nat
  fileFailAt : Option Nat
  now : Nat
deriving DecidableEq

/-- Terminal outcome of one `mainHandler` run. -/
inductive HandlerResult where
  | panicked
  | notFound
  | headError
  | served (bytes : List Nat)
  | fetchError
  | upstreamError (code : Nat) (status : String)
  | cacheCreateError
  | streamAborted
  | completed
deriving DecidableEq

/-- Whether the run ended in the HIT branch (`http.ServeFile`). -/
def HandlerResult.isServed : HandlerResult → Bool
  | .served _ => true
  | _ => false

/-- The status code the handler wrote through `http.Error`, if any.
`served` and `completed` answer with the content (200-family via
ServeFile, respectively streamed body); `panicked` and `streamAborted`
write no status at all — the goroutine dies, respectively the handler
just logs `ERR_STREAM` and returns. -/
def httpErrorStatus : HandlerResult → Option Nat
  | .notFound => some 404
  | .headError => some 500
  | .fetchError => some 500
  | .upstreamError code _ => some code
  | .cacheCreateError => some 500
  | _ => none

/-- The aggregate effect of one request: terminal result, final `cacheitem`
table, final filesystem, the body chunks the MISS-path copy delivered to
the client, and the number of upstream GET fetches issued. -/
structure HandlerOut where
  result : HandlerResult
  cacheitem : List CacheRow
  fs : Fs
  clientChunks : List (List Nat)
  gets : Nat
deriving DecidableEq

/-- `prepareCacheDir`: on `MkdirAll` success the cache path
`filepath.Join(cacheDir, repo, itemPath)`, on failure the empty string the
caller is left with (`cachePath, err := prepareCacheDir(...)` logs the
error and keeps going). -/
def requestCachePath (w : World) (repoName rest : String) : String :=
  if w.mkdirOk then w.cacheDir ++ "/" ++ repoName ++ "/" ++ rest else ""

/-- The freshness verdict the handler uses: `inCache, _ := itemInCache(...)`
with the returned error discarded. -/
def inCacheBool (w : World) (repoName rest lastMod : String) (contentLength : Int)
    (etag : String) : Bool :=
  (itemInCache (lookupOutcome w.dbReadOk w.cacheitem repoName rest) lastMod contentLength etag).fst

/-- The HIT branch: `http.ServeFile(w, r, cachePath)` serves the cached
blob's bytes; nothing is mutated and no GET is issued. -/
def hitOut (w : World) (cachePath : String) : HandlerOut :=
  { result := .served ((List.lookup cachePath w.fs).getD [])
    cacheitem := w.cacheitem
    fs := w.fs
    clientChunks := []
    gets := 0 }

/-- The MISS tail of `mainHandler` (repoproxyd.go lines 181-224): GET the
target, propagate upstream errors, `os.Create` the cache file at its final
path, tee-copy the body to the client and the file, then `updateCache`
with the GET headers (falling back to the probe's content length when the
GET omitted Content-Length, and stripping a weak-validator prefix from the
GET etag); an `updateCache` error is only logged. -/
def missPath (w : World) (repoName rest : String) (contentLength : Int)
    (cachePath : String) : HandlerOut :=
  match w.getResp with
  | none =>
    { result := .fetchError, cacheitem := w.cacheitem, fs := w.fs
      clientChunks := [], gets := 1 }
  | some g =>
    if 400 ≤ g.statusCode then
      { result := .upstreamError g.statusCode g.status, cacheitem := w.cacheitem
        fs := w.fs, clientChunks := [], gets := 1 }
    else if w.createOk = false then
      { result := .cacheCreateError, cacheitem := w.cacheitem, fs := w.fs
        clientChunks := [], gets := 1 }
    else
      let fsCreated := fsSet w.fs cachePath []
      let copied := ioCopy { written := [], failAt := w.clientFailAt }
                           { written := [], failAt := w.fileFailAt } g.body
      let fsAfter := fsSet fsCreated cachePath copied.2.1.written.flatten
      if copied.2.2 = false then
        { result := .streamAborted, cacheitem := w.cacheitem, fs := fsAfter
          clientChunks := copied.1.written, gets := 1 }
      else
        { result := .completed
          cacheitem :=
            if w.dbWriteOk then
              updateCache w.cacheitem repoName rest g.lastModified
                (if g.contentLength == "" then contentLength else goParseInt g.contentLength)
                (goTrimPfx g.etag "W/") w.now
            else w.cacheitem
          fs := fsAfter
          clientChunks := copied.1.written
          gets := 1 }

/-- Go `mainHandler` (repoproxyd.go lines 133-225).  Routing: trim the
`/r/` route prefix, `strings.SplitN(repoUrl, "/", 2)`, then index elements
0 and 1 — indexing element 1 of a one-element split result is an
out-of-range panic, modelled as the `panicked` outcome.  Then repomap
lookup (`404` on failure), HEAD probe (`500` on failure), cache-directory
preparation (failure only logged), the stat-and-descriptor HIT test, and
on MISS the fetch-and-store tail. -/
def mainHandler (w : World) (urlPath : String) : HandlerOut :=
  let repoUrl := goTrimPfx urlPath "/r/"
  match goSplitN2 repoUrl '/' with
  | [repoName, rest] =>
    match List.lookup repoName w.repomap with
    | none =>
      { result := .notFound, cacheitem := w.cacheitem, fs := w.fs
        clientChunks := [], gets := 0 }
    | some _baseURL =>
      match w.headResp with
      | none =>
        { result := .headError, cacheitem := w.cacheitem, fs := w.fs
          clientChunks := [], gets := 0 }
      | some hd =>
        let cachePath := requestCachePath w repoName rest
        if (List.lookup cachePath w.fs).isSome &&
            inCacheBool w repoName rest hd.lastModified (goParseInt hd.contentLength) hd.etag then
          hitOut w cachePath
        else
          missPath w repoName rest (goParseInt hd.contentLength) cachePath
  | _ =>
    { result := .panicked, cacheitem := w.cacheitem, fs := w.fs
      clientChunks := [], gets := 0 }

/-! Concrete worlds used to instantiate the theorems below.  Each is a
small, fully explicit request environment for the proxy. -/

/-- A 200 GET response with a three-chunk body. -/
def gC1 : GetResp :=
  { statusCode := 200, status := "200 OK", lastModified := "Mon", etag := "abc"
    contentLength := "3", body := [[1], [2], [3]] }

/-- First fetch of /r/pkgs/a/b.tar, with the client connection dying before
the third body chunk is written. -/
def wC1 : World :=
  { repomap := [("pkgs", "http://upstream.example/repo")]
    cacheitem := [], fs := [], cacheDir := "/cache"
    headResp := some { lastModified := "Mon", contentLength := "3", etag := "abc", contentType := "" }
    getResp := some gC1
    mkdirOk := true, createOk := true, dbReadOk := true, dbWriteOk := true
    clientFailAt := some 2, fileFailAt := none, now := 1 }

/-- The descriptor stored by an earlier fetch of /r/pkgs/a/b.tar. -/
def rowC4 : CacheRow := ⟨"pkgs", "a/b.tar", "Mon", 3, "abc", 1⟩

/-- A revalidation of /r/pkgs/a/b.tar whose probe matches the stored
descriptor and whose blob is on disk; no GET response is even available. -/
def wC4 : World :=
  { repomap := [("pkgs", "http://upstream.example/repo")]
    cacheitem := [rowC4]
    fs := [("/cache/pkgs/a/b.tar", [1, 2, 3])], cacheDir := "/cache"
    headResp := some { lastModified := "Mon", contentLength := "3", etag := "abc", contentType := "" }
    getResp := none
    mkdirOk := true, createOk := true, dbReadOk := true, dbWriteOk := true
    clientFailAt := none, fileFailAt := none, now := 9 }

/-- A stored descriptor whose etag was stripped of W/ when it was stored. -/
def rowC5 : CacheRow := ⟨"pkgs", "a/b.tar", "Mon", 3, "abc", 0⟩

/-- A revalidation whose probe carries the weak etag W/abc: everything the
spec requires for a HIT holds once the probe etag is stripped. -/
def wC5 : World :=
  { repomap := [("pkgs", "http://upstream.example/repo")]
    cacheitem := [rowC5]
    fs := [("/cache/pkgs/a/b.tar", [7])], cacheDir := "/cache"
    headResp := some { lastModified := "Mon", contentLength := "3", etag := "W/abc", contentType := "" }
    getResp := some { statusCode := 200, status := "200 OK", lastModified := "Mon"
                      etag := "W/abc", contentLength := "3", body := [[7]] }
    mkdirOk := true, createOk := true, dbReadOk := true, dbWriteOk := true
    clientFailAt := none, fileFailAt := none, now := 2 }

/-- A GET response with a weak etag and no Content-Length header. -/
def gC5w : GetResp :=
  { statusCode := 200, status := "200 OK", lastModified := "Tue", etag := "W/xyz"
    contentLength := "", body := [[9]] }

/-- A first fetch whose GET answer carries a weak etag, used to watch what
the persist step stores. -/
def wC5w : World :=
  { repomap := [("pkgs", "http://upstream.example/repo")]
    cacheitem := [], fs := [], cacheDir := "/cache"
    headResp := some { lastModified := "Mon", contentLength := "3", etag := "abc", contentType := "" }
    getResp := some gC5w
    mkdirOk := true, createOk := true, dbReadOk := true, dbWriteOk := true
    clientFailAt := none, fileFailAt := none, now := 3 }

/-- A 200 GET response with a two-chunk body. -/
def gC6 : GetResp :=
  { statusCode := 200, status := "200 OK", lastModified := "Mon", etag := "abc"
    contentLength := "3", body := [[4, 5], [6]] }

/-- A clean first fetch of /r/pkgs/a/b.tar with no failures anywhere. -/
def wC6 : World :=
  { repomap := [("pkgs", "http://upstream.example/repo")]
    cacheitem := [], fs := [], cacheDir := "/cache"
    headResp := some { lastModified := "Mon", contentLength := "3", etag := "abc", contentType := "" }
    getResp := some gC6
    mkdirOk := true, createOk := true, dbReadOk := true, dbWriteOk := true
    clientFailAt := none, fileFailAt := none, now := 4 }

/-- A one-chunk 200 GET response. -/
def gC7 : GetResp :=
  { statusCode := 200, status := "200 OK", lastModified := "", etag := ""
    contentLength := "", body := [[5]] }

/-- A fetch of /r/pkgs/f.bin whose client connection fails on the very
first body write. -/
def wC7 : World :=
  { repomap := [("pkgs", "http://upstream.example/repo")]
    cacheitem := [], fs := [], cacheDir := "/cache"
    headResp := some { lastModified := "", contentLength := "", etag := "", contentType := "" }
    getResp := some gC7
    mkdirOk := true, createOk := true, dbReadOk := true, dbWriteOk := true
    clientFailAt := some 0, fileFailAt := none, now := 5 }

/-- A two-chunk 200 GET response. -/
def gC7w : GetResp :=
  { statusCode := 200, status := "200 OK", lastModified := "", etag := ""
    contentLength := "", body := [[8], [9]] }

/-- A fetch of /r/pkgs/g.bin whose cache-file write fails on the second
body chunk. -/
def wC7w : World :=
  { repomap := [("pkgs", "http://upstream.example/repo")]
    cacheitem := [], fs := [], cacheDir := "/cache"
    headResp := some { lastModified := "", contentLength := "", etag := "", contentType := "" }
    getResp := some gC7w
    mkdirOk := true, createOk := true, dbReadOk := true, dbWriteOk := true
    clientFailAt := none, fileFailAt := some 1, now := 6 }

/-- An upstream 503 answer to the full fetch. -/
def gC8 : GetResp :=
  { statusCode := 503, status := "503 Service Unavailable", lastModified := ""
    etag := "", contentLength := "", body := [] }

/-- A fetch of /r/pkgs/a/b.tar that the upstream answers with 503. -/
def wC8 : World :=
  { repomap := [("pkgs", "http://upstream.example/repo")]
    cacheitem := [], fs := [], cacheDir := "/cache"
    headResp := some { lastModified := "Mon", contentLength := "3", etag := "abc", contentType := "" }
    getResp := some gC8
    mkdirOk := true, createOk := true, dbReadOk := true, dbWriteOk := true
    clientFailAt := none, fileFailAt := none, now := 7 }

/-- A descriptor and blob that would make wC9 a HIT if the index read worked. -/
def rowC9 : CacheRow := ⟨"pkgs", "a/b.tar", "Mon", 3, "abc", 0⟩

/-- A revalidation during which every Metadata Index read fails, even
though a matching descriptor and blob are present. -/
def wC9 : World :=
  { repomap := [("pkgs", "http://upstream.example/repo")]
    cacheitem := [rowC9]
    fs := [("/cache/pkgs/a/b.tar", [1])], cacheDir := "/cache"
    headResp := some { lastModified := "Mon", contentLength := "3", etag := "abc", contentType := "" }
    getResp := some { statusCode := 200, status := "200 OK", lastModified := "Mon"
                      etag := "abc", contentLength := "3", body := [[1]] }
    mkdirOk := true, createOk := true, dbReadOk := false, dbWriteOk := true
    clientFailAt := none, fileFailAt := none, now := 8 }

/-- A bare world for the routing panic: the request dies before any
collaborator is consulted. -/
def wC10 : World :=
  { repomap := [], cacheitem := [], fs := [], cacheDir := "/cache"
    headResp := none, getResp := none
    mkdirOk := false, createOk := false, dbReadOk := false, dbWriteOk := false
    clientFailAt := none, fileFailAt := none, now := 0 }

/-! Helper lemmas about the streaming copy, the filesystem map, the route
split and the table operations. -/

theorem sinkWrite_cases (s : Sink) (x : List Nat) :
    sinkWrite s x = (s, false) ∨
      sinkWrite s x = ({ s with written := s.written ++ [x] }, true) := by
  unfold sinkWrite
  rcases hf : s.failAt with _ | n
  · right; rfl
  · by_cases h : (s.written.length == n) = true
    · left; simp [h]
    · right; simp [h]

theorem multiWrite_of_true (c f : Sink) (x : List Nat)
    (h : (multiWrite c f x).2.2 = true) :
    (multiWrite c f x).1 = { c with written := c.written ++ [x] } ∧
    (multiWrite c f x).2.1 = { f with written := f.written ++ [x] } := by
  rcases sinkWrite_cases c x with hc | hc <;>
    rcases sinkWrite_cases f x with hfx | hfx <;>
      simp [multiWrite, hc, hfx] at h ⊢

theorem multiWrite_of_false (c f : Sink) (x : List Nat)
    (h : (multiWrite c f x).2.2 = false) :
    (multiWrite c f x).2.1.written = f.written := by
  rcases sinkWrite_cases c x with hc | hc <;>
    rcases sinkWrite_cases f x with hfx | hfx <;>
      simp [multiWrite, hc, hfx] at h ⊢

theorem ioCopy_noFail (body : List (List Nat)) :
    ∀ cw fw : List (List Nat),
      ioCopy { written := cw, failAt := none } { written := fw, failAt := none } body =
        ({ written := cw ++ body, failAt := none },
         { written := fw ++ body, failAt := none }, true) := by
  induction body with
  | nil => intro cw fw; simp [ioCopy]
  | cons x rest ih =>
    intro cw fw
    simp only [ioCopy, multiWrite, sinkWrite]
    simp [ih, List.append_assoc]

theorem ioCopy_abort_length (body : List (List Nat)) :
    ∀ c f : Sink, (ioCopy c f body).2.2 = false →
      ((ioCopy c f body).2.1).written.length < f.written.length + body.length := by
  induction body with
  | nil => intro c f h; simp [ioCopy] at h
  | cons x rest ih =>
    intro c f h
    by_cases hm : (multiWrite c f x).2.2 = true
    · have hred : ioCopy c f (x :: rest) = ioCopy (multiWrite c f x).1 (multiWrite c f x).2.1 rest := by
        simp [ioCopy, hm]
      rw [hred] at h
      have hlt := ih _ _ h
      rw [hred]
      have hw : (multiWrite c f x).2.1.written.length = f.written.length + 1 := by
        rw [(multiWrite_of_true c f x hm).2]; simp
      rw [hw] at hlt
      rw [List.length_cons]
      omega
    · have hm' : (multiWrite c f x).2.2 = false := by
        rcases hb : (multiWrite c f x).2.2 with _ | _
        · rfl
        · exact absurd hb hm
      have hred : ioCopy c f (x :: rest) = multiWrite c f x := by
        simp [ioCopy, hm']
      rw [hred, multiWrite_of_false c f x hm', List.length_cons]
      omega

theorem lookup_fsSet (fs : Fs) (p : String) (c : List Nat) :
    List.lookup p (fsSet fs p c) = some c := by
  simp [fsSet, List.lookup]

theorem splitFirst_eq_none (sep : Char) :
    ∀ cs : List Char, sep ∉ cs → splitFirst sep cs = none := by
  intro cs
  induction cs with
  | nil => intro _; rfl
  | cons c cs ih =>
    intro h
    rw [List.mem_cons, not_or] at h
    obtain ⟨h1, h2⟩ := h
    have hc : (c == sep) = false := by
      rw [beq_eq_false_iff_ne]
      exact fun hEq => h1 hEq.symm
    simp [splitFirst, hc, ih h2]

theorem goSplitN2_no_sep (s : String) (sep : Char) (h : sep ∉ s.data) :
    goSplitN2 s sep = [s] := by
  unfold goSplitN2
  rw [splitFirst_eq_none sep s.data h]

theorem rowMatches_mk (rn p lm : String) (sz : Int) (et : String) (now : Nat)
    (r q : String) :
    rowMatches r q ⟨rn, p, lm, sz, et, now⟩ = (rn == r && p == q) := rfl

theorem rowMatches_key (r q : String) (row : CacheRow) (h : rowMatches r q row = true) :
    row.reponame = r ∧ row.pathname = q := by
  simpa [rowMatches, Bool.and_eq_true, beq_iff_eq] using h

theorem countCacheitem_nil (rn p : String) : countCacheitem [] rn p = 0 := rfl

theorem countCacheitem_append (t1 t2 : List CacheRow) (rn p : String) :
    countCacheitem (t1 ++ t2) rn p = countCacheitem t1 rn p + countCacheitem t2 rn p := by
  simp [countCacheitem, List.filter_append]

theorem countCacheitem_singleton (row : CacheRow) (rn p : String) :
    countCacheitem [row] rn p = if rowMatches rn p row then 1 else 0 := by
  unfold countCacheitem
  by_cases h : rowMatches rn p row = true
  · simp [List.filter, h]
  · have h' : rowMatches rn p row = false := by
      rcases hb : rowMatches rn p row with _ | _
      · rfl
      · exact absurd hb h
    simp [List.filter, h']

theorem rowMatches_updated (rn0 p0 lm : String) (sz : Int) (et : String) (now : Nat)
    (rn p : String) (x : CacheRow) :
    rowMatches rn p
      (if rowMatches rn0 p0 x then
        { x with lastmodified := lm, filesize := sz, etag := et, updatedate := now }
       else x) = rowMatches rn p x := by
  split <;> simp [rowMatches]

theorem countCacheitem_sqlUpdate (tbl : List CacheRow) (lm : String) (sz : Int) (et : String)
    (rn0 p0 : String) (now : Nat) (rn p : String) :
    countCacheitem (sqlUpdateCacheitem tbl lm sz et rn0 p0 now) rn p =
      countCacheitem tbl rn p := by
  induction tbl with
  | nil => rfl
  | cons x xs ih =>
    unfold countCacheitem sqlUpdateCacheitem at *
    simp only [List.map_cons, List.filter_cons]
    rw [rowMatches_updated]
    by_cases h : rowMatches rn p x = true
    · simp only [h, if_true, List.length_cons, ih]
    · have h' : rowMatches rn p x = false := by
        rcases hb : rowMatches rn p x with _ | _
        · rfl
        · exact absurd hb h
      simp only [h', if_false, Bool.false_eq_true, ih]

theorem length_sqlUpdate (tbl : List CacheRow) (lm : String) (sz : Int) (et : String)
    (rn0 p0 : String) (now : Nat) :
    (sqlUpdateCacheitem tbl lm sz et rn0 p0 now).length = tbl.length := by
  simp [sqlUpdateCacheitem]

theorem queryCacheitem_isSome_of_count_pos (tbl : List CacheRow) (rn p : String)
    (h : countCacheitem tbl rn p ≠ 0) : ∃ r, queryCacheitem tbl rn p = some r := by
  induction tbl with
  | nil => exact absurd rfl h
  | cons x xs ih =>
    by_cases hx : rowMatches rn p x = true
    · exact ⟨x, by simp [queryCacheitem, List.find?_cons_of_pos _ hx]⟩
    · have hx' : rowMatches rn p x = false := by
        rcases hb : rowMatches rn p x with _ | _
        · rfl
        · exact absurd hb hx
      have hcount : countCacheitem xs rn p ≠ 0 := by
        unfold countCacheitem at h ⊢
        simpa [List.filter_cons, hx'] using h
      obtain ⟨r, hr⟩ := ih hcount
      refine ⟨r, ?_⟩
      unfold queryCacheitem at hr ⊢
      rw [List.find?_cons_of_neg _ (by simp [hx']), hr]

theorem queryCacheitem_sqlUpdate_found (tbl : List CacheRow) (lm : String) (sz : Int)
    (et : String) (rn p : String) (now : Nat)
    (h : ∃ r0, queryCacheitem tbl rn p = some r0) :
    queryCacheitem (sqlUpdateCacheitem tbl lm sz et rn p now) rn p =
      some ⟨rn, p, lm, sz, et, now⟩ := by
  induction tbl with
  | nil => obtain ⟨r0, hr0⟩ := h; simp [queryCacheitem] at hr0
  | cons x xs ih =>
    by_cases hx : rowMatches rn p x = true
    · obtain ⟨hrn, hp⟩ := rowMatches_key rn p x hx
      have hx2 : rowMatches rn p
          { x with lastmodified := lm, filesize := sz, etag := et, updatedate := now } = true := by
        simp [rowMatches, hrn, hp]
      unfold queryCacheitem sqlUpdateCacheitem
      simp only [List.map_cons, hx, if_true]
      rw [List.find?_cons_of_pos _ hx2]
      cases x
      simp_all
    · have hx' : rowMatches rn p x = false := by
        rcases hb : rowMatches rn p x with _ | _
        · rfl
        · exact absurd hb hx
      have hxs : ∃ r0, queryCacheitem xs rn p = some r0 := by
        obtain ⟨r0, hr0⟩ := h
        unfold queryCacheitem at hr0
        rw [List.find?_cons_of_neg _ (by simp [hx'])] at hr0
        exact ⟨r0, hr0⟩
      have := ih hxs
      unfold queryCacheitem sqlUpdateCacheitem at this ⊢
      simp only [List.map_cons, hx', Bool.false_eq_true, if_false]
      rw [List.find?_cons_of_neg _ (by simp [rowMatches_updated, hx'])]
      exact this

theorem itemInCache_found_fst (r : CacheRow) (lm : String) (sz : Int) (et : String) :
    (itemInCache (.found r) lm sz et).fst =
      (r.lastmodified == lm && r.filesize == sz && r.etag == et) := by
  unfold itemInCache
  by_cases h : (r.lastmodified == lm && r.filesize == sz && r.etag == et) = true
  · simp [h]
  · have h' : (r.lastmodified == lm && r.filesize == sz && r.etag == et) = false := by
      rcases hb : (r.lastmodified == lm && r.filesize == sz && r.etag == et) with _ | _
      · rfl
      · exact absurd hb h
    simp [h']

theorem inCacheBool_true_iff (w : World) (rn rest lastMod : String) (cl : Int) (et : String)
    (hdb : w.dbReadOk = true) :
    inCacheBool w rn rest lastMod cl et = true ↔
      ∃ r, queryCacheitem w.cacheitem rn rest = some r ∧
        r.lastmodified = lastMod ∧ r.filesize = cl ∧ r.etag = et := by
  unfold inCacheBool lookupOutcome
  rw [hdb]
  rcases hq : queryCacheitem w.cacheitem rn rest with _ | r
  · simp [itemInCache]
  · simp only [if_true]
    rw [itemInCache_found_fst]
    simp [Bool.and_eq_true, beq_iff_eq, and_assoc]

theorem mainHandler_classify (w : World) (urlPath repoName rest baseURL : String)
    (hd : HeadResp)
    (hsplit : goSplitN2 (goTrimPfx urlPath "/r/") '/' = [repoName, rest])
    (hmap : List.lookup repoName w.repomap = some baseURL)
    (hhead : w.headResp = some hd) :
    mainHandler w urlPath =
      if (List.lookup (requestCachePath w repoName rest) w.fs).isSome &&
          inCacheBool w repoName rest hd.lastModified (goParseInt hd.contentLength) hd.etag then
        hitOut w (requestCachePath w repoName rest)
      else
        missPath w repoName rest (goParseInt hd.contentLength) (requestCachePath w repoName rest) := by
  simp [mainHandler, hsplit, hmap, hhead]

theorem missPath_upstream_err (w : World) (rn rest : String) (cl : Int) (cp : String)
    (g : GetResp) (hget : w.getResp = some g) (hstatus : 400 ≤ g.statusCode) :
    missPath w rn rest cl cp =
      { result := .upstreamError g.statusCode g.status, cacheitem := w.cacheitem
        fs := w.fs, clientChunks := [], gets := 1 } := by
  simp [missPath, hget, hstatus]

theorem missPath_abort (w : World) (rn rest : String) (cl : Int) (cp : String) (g : GetResp)
    (hget : w.getResp = some g) (hstatus : ¬ 400 ≤ g.statusCode) (hcreate : w.createOk = true)
    (habort : (ioCopy { written := [], failAt := w.clientFailAt }
                      { written := [], failAt := w.fileFailAt } g.body).2.2 = false) :
    missPath w rn rest cl cp =
      { result := .streamAborted, cacheitem := w.cacheitem
        fs := fsSet (fsSet w.fs cp []) cp
          ((ioCopy { written := [], failAt := w.clientFailAt }
                    { written := [], failAt := w.fileFailAt } g.body).2.1.written.flatten)
        clientChunks := (ioCopy { written := [], failAt := w.clientFailAt }
                                { written := [], failAt := w.fileFailAt } g.body).1.written
        gets := 1 } := by
  simp [missPath, hget, hstatus, hcreate, habort]

theorem missPath_complete (w : World) (rn rest : String) (cl : Int) (cp : String) (g : GetResp)
    (hget : w.getResp = some g) (hstatus : ¬ 400 ≤ g.statusCode) (hcreate : w.createOk = true)
    (hcf : w.clientFailAt = none) (hff : w.fileFailAt = none) :
    missPath w rn rest cl cp =
      { result := .completed
        cacheitem :=
          if w.dbWriteOk then
            updateCache w.cacheitem rn rest g.lastModified
              (if g.contentLength == "" then cl else goParseInt g.contentLength)
              (goTrimPfx g.etag "W/") w.now
          else w.cacheitem
        fs := fsSet (fsSet w.fs cp []) cp g.body.flatten
        clientChunks := g.body
        gets := 1 } := by
  simp [missPath, hget, hstatus, hcreate, hcf, hff, ioCopy_noFail]

theorem missPath_never_served (w : World) (rn rest : String) (cl : Int) (cp : String) :
    (missPath w rn rest cl cp).result.isServed = false := by
  unfold missPath
  rcases w.getResp with _ | g
  · rfl
  · by_cases h4 : 400 ≤ g.statusCode
    · simp [h4, HandlerResult.isServed]
    · by_cases hc : w.createOk = false
      · simp [h4, hc, HandlerResult.isServed]
      · by_cases hab : (ioCopy { written := [], failAt := w.clientFailAt }
            { written := [], failAt := w.fileFailAt } g.body).2.2 = false
        · simp [h4, hc, hab, HandlerResult.isServed]
        · simp [h4, hc, hab, HandlerResult.isServed]

theorem missPath_gets_one (w : World) (rn rest : String) (cl : Int) (cp : String) :
    (missPath w rn rest cl cp).gets = 1 := by
  unfold missPath
  rcases w.getResp with _ | g
  · rfl
  · by_cases h4 : 400 ≤ g.statusCode
    · simp [h4]
    · by_cases hc : w.createOk = false
      · simp [h4, hc]
      · by_cases hab : (ioCopy { written := [], failAt := w.clientFailAt }
            { written := [], failAt := w.fileFailAt } g.body).2.2 = false
        · simp [h4, hc, hab]
        · simp [h4, hc, hab]

/-! Claim theorems. -/

/-- C1: the claim says the fetched blob reaches its final cache path only
after the full body is received, so a truncated file is never visible
there.  The code instead `os.Create`s the final path and streams into it:
in the concrete run `wC1` the client sink dies before the third chunk, the
copy aborts, and the file at the final path /cache/pkgs/a/b.tar holds
[1, 2] — a strict truncation of the three-chunk body of `gC1` — refuting
the claim on the code as written. -/
theorem c1_partial_blob_at_final_path :
    (mainHandler wC1 "/r/pkgs/a/b.tar").result = .streamAborted ∧
    List.lookup "/cache/pkgs/a/b.tar" (mainHandler wC1 "/r/pkgs/a/b.tar").fs = some [1, 2] ∧
    ([1, 2] : List Nat) ≠ gC1.body.flatten := by
  refine ⟨by decide, by decide, by decide⟩

/-- C3: `updateCache` is a separate `SELECT COUNT(*)` (issued on the pool,
outside the transaction) followed by an INSERT or UPDATE chosen from that
count — the first conjunct records this read-then-write decomposition
definitionally.  Interleaving two writers for the same key so that both
counts precede both writes leaves two `cacheitem` rows for the key, which
the schema (no unique constraint on reponame, pathname) accepts: the
upsert is not a single atomic insert-or-update statement. -/
theorem c3_check_then_write_duplicates :
    (∀ (tbl : List CacheRow) (rn p lm : String) (sz : Int) (et : String) (now : Nat),
      updateCache tbl rn p lm sz et now =
        updateCacheWrite tbl (countCacheitem tbl rn p) rn p lm sz et now) ∧
    countCacheitem
      (twoWritersBothReadFirst [] "pkgs" "a/b.tar" "Mon" 3 "abc" 1 "Tue" 4 "xyz" 2)
      "pkgs" "a/b.tar" = 2 := by
  exact ⟨fun tbl rn p lm sz et now => rfl, by decide⟩

/-- C10: when the URL path, after the /r/ route prefix is trimmed, contains
no slash, `strings.SplitN(repoUrl, "/", 2)` yields a one-element slice and
`path[1]` is an out-of-range index: the handler panics, mutating nothing
and writing no HTTP response. -/
theorem c10_no_slash_panics (w : World) (urlPath : String)
    (h : '/' ∉ (goTrimPfx urlPath "/r/").data) :
    mainHandler w urlPath =
      { result := .panicked, cacheitem := w.cacheitem, fs := w.fs
        clientChunks := [], gets := 0 } ∧
    httpErrorStatus (mainHandler w urlPath).result = none := by
  have hs := goSplitN2_no_sep (goTrimPfx urlPath "/r/") '/' h
  constructor
  · simp [mainHandler, hs]
  · simp [mainHandler, hs, httpErrorStatus]

/-- Witness for C10 at the request GET /r/pkgs. -/
theorem c10_witness :
    mainHandler wC10 "/r/pkgs" =
      { result := .panicked, cacheitem := wC10.cacheitem, fs := wC10.fs
        clientChunks := [], gets := 0 } :=
  (c10_no_slash_panics wC10 "/r/pkgs" (by decide)).1

/-- C9: every freshness-lookup failure — the no-rows case and a database
error alike — makes `itemInCache` return `(false, nil)`, and a request
whose Metadata Index reads all fail (`dbReadOk = false`) is never
classified HIT: it falls through to the MISS tail (which issues the one
upstream GET), with no error surfaced on account of the lookup. -/
theorem c9_lookup_failure_miss (lm : String) (sz : Int) (et : String)
    (w : World) (urlPath repoName rest baseURL : String) (hd : HeadResp)
    (hsplit : goSplitN2 (goTrimPfx urlPath "/r/") '/' = [repoName, rest])
    (hmap : List.lookup repoName w.repomap = some baseURL)
    (hhead : w.headResp = some hd)
    (hdb : w.dbReadOk = false) :
    itemInCache .notFound lm sz et = (false, none) ∧
    itemInCache .dbError lm sz et = (false, none) ∧
    (mainHandler w urlPath).result.isServed = false ∧
    (mainHandler w urlPath).gets = 1 := by
  have hic : inCacheBool w repoName rest hd.lastModified (goParseInt hd.contentLength) hd.etag
      = false := by
    unfold inCacheBool lookupOutcome
    rw [hdb]
    rfl
  rw [mainHandler_classify w urlPath repoName rest baseURL hd hsplit hmap hhead]
  rw [hic]
  simp [missPath_never_served, missPath_gets_one, itemInCache]

/-- Witness for C9: in `wC9` a matching descriptor and blob exist, yet the
failing index read degrades the request to a MISS with one upstream GET. -/
theorem c9_witness :
    itemInCache .notFound "Mon" 3 "abc" = (false, none) ∧
    itemInCache .dbError "Mon" 3 "abc" = (false, none) ∧
    (mainHandler wC9 "/r/pkgs/a/b.tar").result.isServed = false ∧
    (mainHandler wC9 "/r/pkgs/a/b.tar").gets = 1 :=
  c9_lookup_failure_miss "Mon" 3 "abc" wC9 "/r/pkgs/a/b.tar" "pkgs" "a/b.tar"
    "http://upstream.example/repo"
    { lastModified := "Mon", contentLength := "3", etag := "abc", contentType := "" }
    (by decide) (by decide) rfl rfl

/-- C2: sequentially, `updateCache` is a per-key upsert.  Starting from any
table with at most one row per (reponame, pathname) key: afterwards the
updated key has exactly one row, every key still has at most one row, a
previously absent key is served by an INSERT of exactly the new row, and a
present key keeps the table length and ends up holding the new descriptor
(overwritten, not duplicated). -/
theorem c2_updateCache_upsert_unique (tbl : List CacheRow) (rn p lm : String) (sz : Int)
    (et : String) (now : Nat)
    (hinv : ∀ r q, countCacheitem tbl r q ≤ 1) :
    countCacheitem (updateCache tbl rn p lm sz et now) rn p = 1 ∧
    (∀ r q, countCacheitem (updateCache tbl rn p lm sz et now) r q ≤ 1) ∧
    (countCacheitem tbl rn p = 0 →
      updateCache tbl rn p lm sz et now = tbl ++ [⟨rn, p, lm, sz, et, now⟩]) ∧
    (countCacheitem tbl rn p ≠ 0 →
      (updateCache tbl rn p lm sz et now).length = tbl.length ∧
      queryCacheitem (updateCache tbl rn p lm sz et now) rn p =
        some ⟨rn, p, lm, sz, et, now⟩) := by
  by_cases h0 : countCacheitem tbl rn p = 0
  · have hupd : updateCache tbl rn p lm sz et now =
        tbl ++ [⟨rn, p, lm, sz, et, now⟩] := by
      unfold updateCache updateCacheWrite sqlInsertCacheitem
      simp [h0]
    refine ⟨?_, ?_, fun _ => hupd, fun hne => absurd h0 hne⟩
    · rw [hupd, countCacheitem_append, h0, countCacheitem_singleton]
      simp [rowMatches_mk]
    · intro r q
      rw [hupd, countCacheitem_append, countCacheitem_singleton]
      by_cases hm : rowMatches r q ⟨rn, p, lm, sz, et, now⟩ = true
      · obtain ⟨h1, h2⟩ := rowMatches_key r q _ hm
        have h1' : rn = r := h1
        have h2' : p = q := h2
        subst h1'
        subst h2'
        rw [hm, h0]
        simp
      · have hm' : rowMatches r q ⟨rn, p, lm, sz, et, now⟩ = false := by
          rcases hb : rowMatches r q ⟨rn, p, lm, sz, et, now⟩ with _ | _
          · rfl
          · exact absurd hb hm
        rw [hm']
        simpa using hinv r q
  · have hupd : updateCache tbl rn p lm sz et now =
        sqlUpdateCacheitem tbl lm sz et rn p now := by
      unfold updateCache updateCacheWrite
      simp [h0]
    have hcnt : countCacheitem tbl rn p = 1 :=
      Nat.le_antisymm (hinv rn p) (Nat.one_le_iff_ne_zero.mpr h0)
    refine ⟨?_, ?_, fun hz => absurd hz h0, fun _ => ⟨?_, ?_⟩⟩
    · rw [hupd, countCacheitem_sqlUpdate, hcnt]
    · intro r q
      rw [hupd, countCacheitem_sqlUpdate]
      exact hinv r q
    · rw [hupd, length_sqlUpdate]
    · rw [hupd]
      exact queryCacheitem_sqlUpdate_found tbl lm sz et rn p now
        (queryCacheitem_isSome_of_count_pos tbl rn p h0)

/-- Witness for C2: the first fetch of ("pkgs", "a/b.tar") on an empty
table inserts exactly one row for the key. -/
theorem c2_witness :
    countCacheitem (updateCache [] "pkgs" "a/b.tar" "Mon" 3 "abc" 1) "pkgs" "a/b.tar" = 1 ∧
    updateCache [] "pkgs" "a/b.tar" "Mon" 3 "abc" 1 =
      [] ++ [⟨"pkgs", "a/b.tar", "Mon", 3, "abc", 1⟩] := by
  have h := c2_updateCache_upsert_unique [] "pkgs" "a/b.tar" "Mon" 3 "abc" 1
    (fun r q => by simp [countCacheitem, List.filter])
  exact ⟨h.1, h.2.2.1 rfl⟩

/-- C4: once the request is routed and the probe has answered, the run ends
in the HIT branch (ServeFile) precisely when a stored descriptor for the
key has lastmodified, filesize and etag byte-equal to the probe's values
and the blob file exists at the cache path; a HIT issues zero upstream
GETs, and with no stored descriptor the run is never a HIT. -/
theorem c4_hit_iff (w : World) (urlPath repoName rest baseURL : String) (hd : HeadResp)
    (hsplit : goSplitN2 (goTrimPfx urlPath "/r/") '/' = [repoName, rest])
    (hmap : List.lookup repoName w.repomap = some baseURL)
    (hhead : w.headResp = some hd)
    (hdb : w.dbReadOk = true) :
    ((mainHandler w urlPath).result.isServed = true ↔
      ((∃ r, queryCacheitem w.cacheitem repoName rest = some r ∧
          r.lastmodified = hd.lastModified ∧
          r.filesize = goParseInt hd.contentLength ∧
          r.etag = hd.etag) ∧
        (List.lookup (requestCachePath w repoName rest) w.fs).isSome = true)) ∧
    ((mainHandler w urlPath).result.isServed = true → (mainHandler w urlPath).gets = 0) ∧
    (queryCacheitem w.cacheitem repoName rest = none →
      (mainHandler w urlPath).result.isServed = false) := by
  rw [mainHandler_classify w urlPath repoName rest baseURL hd hsplit hmap hhead]
  by_cases hcond : ((List.lookup (requestCachePath w repoName rest) w.fs).isSome &&
      inCacheBool w repoName rest hd.lastModified (goParseInt hd.contentLength) hd.etag) = true
  · rw [if_pos hcond]
    rw [Bool.and_eq_true] at hcond
    obtain ⟨hfs, hic⟩ := hcond
    rw [inCacheBool_true_iff w repoName rest hd.lastModified (goParseInt hd.contentLength)
      hd.etag hdb] at hic
    refine ⟨?_, fun _ => rfl, ?_⟩
    · simp only [hitOut, HandlerResult.isServed]
      exact ⟨fun _ => ⟨hic, hfs⟩, fun _ => trivial⟩
    · intro hq
      obtain ⟨r, hr, _⟩ := hic
      rw [hq] at hr
      exact absurd hr (Option.noConfusion)
  · rw [if_neg hcond]
    have hns := missPath_never_served w repoName rest (goParseInt hd.contentLength)
      (requestCachePath w repoName rest)
    refine ⟨?_, ?_, fun _ => hns⟩
    · rw [hns]
      constructor
      · intro h
        exact absurd h (by simp)
      · rintro ⟨⟨r, hr, h1, h2, h3⟩, hfs⟩
        exfalso
        apply hcond
        rw [Bool.and_eq_true]
        refine ⟨hfs, ?_⟩
        rw [inCacheBool_true_iff w repoName rest hd.lastModified (goParseInt hd.contentLength)
          hd.etag hdb]
        exact ⟨r, hr, h1, h2, h3⟩
    · intro h
      rw [hns] at h
      exact absurd h (by simp)

/-- Witness for C4: in `wC4` the probe matches the stored descriptor and
the blob is on disk, so the request is served from cache with zero GETs. -/
theorem c4_witness :
    (mainHandler wC4 "/r/pkgs/a/b.tar").result.isServed = true ∧
    (mainHandler wC4 "/r/pkgs/a/b.tar").gets = 0 := by
  have h := c4_hit_iff wC4 "/r/pkgs/a/b.tar" "pkgs" "a/b.tar" "http://upstream.example/repo"
    { lastModified := "Mon", contentLength := "3", etag := "abc", contentType := "" }
    (by decide) (by decide) rfl rfl
  have hserved := h.1.mpr ⟨⟨rowC4, by decide, rfl, by decide, rfl⟩, by decide⟩
  exact ⟨hserved, h.2.1 hserved⟩

/-- C5: the claim says the weak-validator prefix is stripped from the etag
before the freshness comparison as well as before storage.  In `wC5` the
stored descriptor rowC5 carries the stripped etag "abc", the probe answers
with the weak etag "W/abc", and every other HIT condition holds — the
stripped probe etag equals the stored one, lastmodified and filesize
match, and the blob is on disk — yet the code classifies MISS and issues a
full upstream GET, because `itemInCache` compares the probe etag raw: the
strip is not applied before the comparison. -/
theorem c5_weak_etag_counterexample :
    queryCacheitem wC5.cacheitem "pkgs" "a/b.tar" = some rowC5 ∧
    rowC5.lastmodified = "Mon" ∧
    rowC5.filesize = goParseInt "3" ∧
    rowC5.etag = goTrimPfx "W/abc" "W/" ∧
    (List.lookup (requestCachePath wC5 "pkgs" "a/b.tar") wC5.fs).isSome = true ∧
    (mainHandler wC5 "/r/pkgs/a/b.tar").result.isServed = false ∧
    (mainHandler wC5 "/r/pkgs/a/b.tar").gets = 1 := by
  decide

/-- C5 (amended): the weak-validator prefix is stripped from the GET
response etag before the descriptor is stored, but the probe etag used in
the freshness comparison is compared raw, unstripped, against the stored
value.  First conjunct: `itemInCache` on a found row is plain byte
equality of the three fields, the probe etag as received.  Second
conjunct: a completed MISS persists exactly `updateCache` applied to the
GET headers with `strings.TrimPrefix(etag, "W/")` applied, and the GET
content length replaced by the probe's only when absent. -/
theorem c5_amended_strip_only_on_store (r : CacheRow) (lm : String) (sz : Int) (et : String)
    (w : World) (urlPath repoName rest baseURL : String) (hd : HeadResp) (g : GetResp)
    (hsplit : goSplitN2 (goTrimPfx urlPath "/r/") '/' = [repoName, rest])
    (hmap : List.lookup repoName w.repomap = some baseURL)
    (hhead : w.headResp = some hd)
    (hnofile : List.lookup (requestCachePath w repoName rest) w.fs = none)
    (hget : w.getResp = some g)
    (hstatus : ¬ 400 ≤ g.statusCode)
    (hcreate : w.createOk = true)
    (hcf : w.clientFailAt = none) (hff : w.fileFailAt = none)
    (hdbw : w.dbWriteOk = true) :
    ((itemInCache (.found r) lm sz et).fst = true ↔
      (r.lastmodified = lm ∧ r.filesize = sz ∧ r.etag = et)) ∧
    (mainHandler w urlPath).cacheitem =
      updateCache w.cacheitem repoName rest g.lastModified
        (if g.contentLength == "" then goParseInt hd.contentLength else goParseInt g.contentLength)
        (goTrimPfx g.etag "W/") w.now := by
  constructor
  · rw [itemInCache_found_fst]
    simp [Bool.and_eq_true, beq_iff_eq, and_assoc]
  · have hmain : mainHandler w urlPath =
        missPath w repoName rest (goParseInt hd.contentLength) (requestCachePath w repoName rest) := by
      rw [mainHandler_classify w urlPath repoName rest baseURL hd hsplit hmap hhead]
      simp [hnofile]
    rw [hmain,
      missPath_complete w repoName rest (goParseInt hd.contentLength)
        (requestCachePath w repoName rest) g hget hstatus hcreate hcf hff]
    simp [hdbw]

/-- Witness for the amended C5: a fresh fetch in `wC5w` whose GET carries
etag W/xyz and no Content-Length stores the stripped etag and the probe's
length. -/
theorem c5_witness :
    ((itemInCache (.found rowC5) "Mon" 3 "abc").fst = true ↔
      (rowC5.lastmodified = "Mon" ∧ rowC5.filesize = 3 ∧ rowC5.etag = "abc")) ∧
    (mainHandler wC5w "/r/pkgs/a/b.tar").cacheitem =
      updateCache wC5w.cacheitem "pkgs" "a/b.tar" gC5w.lastModified
        (if gC5w.contentLength == "" then goParseInt "3" else goParseInt gC5w.contentLength)
        (goTrimPfx gC5w.etag "W/") wC5w.now :=
  c5_amended_strip_only_on_store rowC5 "Mon" 3 "abc" wC5w "/r/pkgs/a/b.tar" "pkgs" "a/b.tar"
    "http://upstream.example/repo"
    { lastModified := "Mon", contentLength := "3", etag := "abc", contentType := "" } gC5w
    (by decide) (by decide) rfl (by decide) rfl (by decide) rfl rfl rfl rfl

/-- C6: on a MISS whose copy completes, the body is tee-copied in one
streaming pass: the chunks delivered to the client are exactly the GET
body in order, the blob store afterwards holds exactly those bytes at the
cache path, and the two byte strings are equal.  Additionally (final
conjunct), a write failure on either sink aborts the copy: whenever the
copy reports failure, the file received strictly fewer chunks than the
body holds. -/
theorem c6_tee_copy (w : World) (urlPath repoName rest baseURL : String) (hd : HeadResp)
    (g : GetResp)
    (hsplit : goSplitN2 (goTrimPfx urlPath "/r/") '/' = [repoName, rest])
    (hmap : List.lookup repoName w.repomap = some baseURL)
    (hhead : w.headResp = some hd)
    (hnofile : List.lookup (requestCachePath w repoName rest) w.fs = none)
    (hget : w.getResp = some g)
    (hstatus : ¬ 400 ≤ g.statusCode)
    (hcreate : w.createOk = true)
    (hcf : w.clientFailAt = none) (hff : w.fileFailAt = none) :
    (mainHandler w urlPath).result = .completed ∧
    (mainHandler w urlPath).clientChunks = g.body ∧
    List.lookup (requestCachePath w repoName rest) (mainHandler w urlPath).fs =
      some g.body.flatten ∧
    (mainHandler w urlPath).clientChunks.flatten = g.body.flatten ∧
    (∀ (cf ff : Option Nat) (body : List (List Nat)),
      (ioCopy { written := [], failAt := cf } { written := [], failAt := ff } body).2.2 = false →
      ((ioCopy { written := [], failAt := cf }
                { written := [], failAt := ff } body).2.1).written.length < body.length) := by
  have hmain : mainHandler w urlPath =
      missPath w repoName rest (goParseInt hd.contentLength) (requestCachePath w repoName rest) := by
    rw [mainHandler_classify w urlPath repoName rest baseURL hd hsplit hmap hhead]
    simp [hnofile]
  rw [hmain,
    missPath_complete w repoName rest (goParseInt hd.contentLength)
      (requestCachePath w repoName rest) g hget hstatus hcreate hcf hff]
  refine ⟨rfl, rfl, lookup_fsSet _ _ _, rfl, ?_⟩
  intro cf ff body h
  have hlt := ioCopy_abort_length body
    { written := [], failAt := cf } { written := [], failAt := ff } h
  simpa using hlt

/-- Witness for C6: the clean fetch `wC6` delivers the two-chunk body of
`gC6` to the client and leaves exactly those bytes in the blob store. -/
theorem c6_witness :
    (mainHandler wC6 "/r/pkgs/a/b.tar").result = .completed ∧
    (mainHandler wC6 "/r/pkgs/a/b.tar").clientChunks = gC6.body ∧
    List.lookup (requestCachePath wC6 "pkgs" "a/b.tar") (mainHandler wC6 "/r/pkgs/a/b.tar").fs =
      some gC6.body.flatten := by
  have h := c6_tee_copy wC6 "/r/pkgs/a/b.tar" "pkgs" "a/b.tar" "http://upstream.example/repo"
    { lastModified := "Mon", contentLength := "3", etag := "abc", contentType := "" } gC6
    (by decide) (by decide) rfl (by decide) rfl (by decide) rfl rfl rfl
  exact ⟨h.1, h.2.1, h.2.2.1⟩

/-- C7: the claim says a mid-copy stream error is surfaced to the client as
a 500 with a diagnostic body.  In the concrete run `wC7` the client sink
fails on the first write, the handler takes the `ERR_STREAM` branch, which
only logs and returns: the result is `streamAborted`, no `http.Error`
status is written at all — in particular not 500 — and the created blob
file is left visible (empty) at its final path. -/
theorem c7_stream_error_counterexample :
    (mainHandler wC7 "/r/pkgs/f.bin").result = .streamAborted ∧
    httpErrorStatus (mainHandler wC7 "/r/pkgs/f.bin").result = none ∧
    ¬ httpErrorStatus (mainHandler wC7 "/r/pkgs/f.bin").result = some 500 ∧
    List.lookup "/cache/pkgs/f.bin" (mainHandler wC7 "/r/pkgs/f.bin").fs = some [] := by
  decide

/-- C7 (amended): a stream error aborts the copy and the handler returns
at once: no error status is written to the client (the body bytes already
sent are all the client sees), and the descriptor is not upserted — the
`cacheitem` table is unchanged.  (The partially written blob, however,
remains at its final cache path.) -/
theorem c7_amended_stream_abort (w : World) (urlPath repoName rest baseURL : String)
    (hd : HeadResp) (g : GetResp)
    (hsplit : goSplitN2 (goTrimPfx urlPath "/r/") '/' = [repoName, rest])
    (hmap : List.lookup repoName w.repomap = some baseURL)
    (hhead : w.headResp = some hd)
    (hnofile : List.lookup (requestCachePath w repoName rest) w.fs = none)
    (hget : w.getResp = some g)
    (hstatus : ¬ 400 ≤ g.statusCode)
    (hcreate : w.createOk = true)
    (habort : (ioCopy { written := [], failAt := w.clientFailAt }
                      { written := [], failAt := w.fileFailAt } g.body).2.2 = false) :
    (mainHandler w urlPath).result = .streamAborted ∧
    httpErrorStatus (mainHandler w urlPath).result = none ∧
    (mainHandler w urlPath).cacheitem = w.cacheitem := by
  have hmain : mainHandler w urlPath =
      missPath w repoName rest (goParseInt hd.contentLength) (requestCachePath w repoName rest) := by
    rw [mainHandler_classify w urlPath repoName rest baseURL hd hsplit hmap hhead]
    simp [hnofile]
  rw [hmain,
    missPath_abort w repoName rest (goParseInt hd.contentLength)
      (requestCachePath w repoName rest) g hget hstatus hcreate habort]
  exact ⟨rfl, rfl, rfl⟩

/-- Witness for the amended C7: in `wC7w` the cache-file write fails on the
second chunk; the handler aborts with no error status and no descriptor
write. -/
theorem c7_witness :
    (mainHandler wC7w "/r/pkgs/g.bin").result = .streamAborted ∧
    httpErrorStatus (mainHandler wC7w "/r/pkgs/g.bin").result = none ∧
    (mainHandler wC7w "/r/pkgs/g.bin").cacheitem = wC7w.cacheitem :=
  c7_amended_stream_abort wC7w "/r/pkgs/g.bin" "pkgs" "g.bin" "http://upstream.example/repo"
    { lastModified := "", contentLength := "", etag := "", contentType := "" } gC7w
    (by decide) (by decide) rfl (by decide) rfl (by decide) rfl (by decide)

/-- C8: when the upstream GET answers with a status ≥ 400, the handler
surfaces the upstream status code together with its status text and
mutates nothing: the `cacheitem` table and the filesystem are exactly as
before, no client bytes are streamed, and the error response carries the
upstream's code. -/
theorem c8_upstream_error_no_mutation (w : World) (urlPath repoName rest baseURL : String)
    (hd : HeadResp) (g : GetResp)
    (hsplit : goSplitN2 (goTrimPfx urlPath "/r/") '/' = [repoName, rest])
    (hmap : List.lookup repoName w.repomap = some baseURL)
    (hhead : w.headResp = some hd)
    (hnofile : List.lookup (requestCachePath w repoName rest) w.fs = none)
    (hget : w.getResp = some g)
    (hstatus : 400 ≤ g.statusCode) :
    mainHandler w urlPath =
      { result := .upstreamError g.statusCode g.status, cacheitem := w.cacheitem
        fs := w.fs, clientChunks := [], gets := 1 } ∧
    httpErrorStatus (mainHandler w urlPath).result = some g.statusCode := by
  have hmain : mainHandler w urlPath =
      missPath w repoName rest (goParseInt hd.contentLength) (requestCachePath w repoName rest) := by
    rw [mainHandler_classify w urlPath repoName rest baseURL hd hsplit hmap hhead]
    simp [hnofile]
  rw [hmain,
    missPath_upstream_err w repoName rest (goParseInt hd.contentLength)
      (requestCachePath w repoName rest) g hget hstatus]
  exact ⟨rfl, rfl⟩

/-- Witness for C8: the 503 answer of `gC8` is propagated with its status
text and neither the table nor the filesystem changes. -/
theorem c8_witness :
    mainHandler wC8 "/r/pkgs/a/b.tar" =
      { result := .upstreamError 503 "503 Service Unavailable", cacheitem := wC8.cacheitem
        fs := wC8.fs, clientChunks := [], gets := 1 } :=
  (c8_upstream_error_no_mutation wC8 "/r/pkgs/a/b.tar" "pkgs" "a/b.tar"
    "http://upstream.example/repo"
    { lastModified := "Mon", contentLength := "3", etag := "abc", contentType := "" } gC8
    (by decide) (by decide) rfl (by decide) rfl (by decide)).1

end Repoproxy
